import Mathlib

/-!
Verification of the educational-video generation pipeline
(`manim_ai_generator.py`, `app.py`).

The development shallowly embeds the string-level and control-flow logic of
the pipeline: the generated-code sanitizer (`_fix_generated_manim_code`),
narration extraction (`extract_narration`), scene-type detection
(`detect_scene_type`), the LLM retry loop (`_call_gemini_with_retry`),
the video-load retry/fallback in `add_audio_to_video`, the renderer timeout
classification in `execute_manim`, the artifact locator, the duration
reconciler, the API input validation (`app.generate_video`), and the output
filename derivation.

Strings are modelled as lists of characters; Python string and `re`
operations used by the source are implemented on that representation.  The
model is ASCII-faithful: Python's Unicode-aware character classes
(`\w`, `\s`, `str.lower`) are modelled on their ASCII behaviour, which
coincides with Python on every concrete string considered here.
-/

/-! ## Basic Python string primitives on `List Char` -/

/-- Characters of a string literal. -/
def str2l (s : String) : List Char := s.data

/-- `pfxEq pat s` : `pat` is a (character-wise) prefix of `s`. -/
def pfxEq : List Char → List Char → Bool
  | [], _ => true
  | _ :: _, [] => false
  | a :: as, b :: bs => a == b && pfxEq as bs

/-- Python `needle in hay` (substring test).  An empty needle is contained
in every string, as in Python. -/
def containsSub (needle : List Char) : List Char → Bool
  | [] => pfxEq needle []
  | c :: t => pfxEq needle (c :: t) || containsSub needle t

/-- Split off the part of `s` before and after the first occurrence of
`sep`; `none` when `sep` does not occur.  (Scanning left to right, as
Python `str.find` does.) -/
def splitFirst (sep : List Char) : List Char → Option (List Char × List Char)
  | [] => none
  | c :: rest =>
      if pfxEq sep (c :: rest) then some ([], (c :: rest).drop sep.length)
      else (splitFirst sep rest).map (fun p => (c :: p.1, p.2))

/-- Python `s.split(sep)` for a non-empty `sep`, fuel-bounded
(`fuel = s.length + 1` always suffices since every separator occurrence
consumes at least one character). -/
def pySplitGo (sep : List Char) : Nat → List Char → List (List Char)
  | 0, s => [s]
  | fuel + 1, s =>
      match splitFirst sep s with
      | none => [s]
      | some (b, a) => b :: pySplitGo sep fuel a

/-- Python `s.split(sep)` (non-empty `sep`). -/
def pySplit (sep s : List Char) : List (List Char) :=
  pySplitGo sep (s.length + 1) s

/-- Python `s.split('\n')`. -/
def splitLinesGo : List Char → List Char → List (List Char)
  | [], acc => [acc.reverse]
  | c :: rest, acc =>
      if c = '\n' then acc.reverse :: splitLinesGo rest []
      else splitLinesGo rest (c :: acc)

/-- Split a string into its lines at `'\n'` (Python `split('\n')`:
no separator is kept, a trailing newline yields a final empty line). -/
def splitLines (s : List Char) : List (List Char) := splitLinesGo s []

/-- Python `'\n'.join(lines)`. -/
def joinLines (lines : List (List Char)) : List Char :=
  List.intercalate ['\n'] lines

/-- `c` is one of the characters in `cs`. -/
def charInL (cs : List Char) (c : Char) : Bool := cs.any (fun d => d == c)

/-- Python whitespace characters (ASCII): space, tab, newline, carriage
return, vertical tab, form feed. -/
def wsSet : List Char := [' ', '\t', '\n', '\r', '\x0b', '\x0c']

/-- Python `s.strip(chars)`: remove leading and trailing characters that
belong to `cs`. -/
def pyStripChars (cs : List Char) (s : List Char) : List Char :=
  ((s.dropWhile (charInL cs)).reverse.dropWhile (charInL cs)).reverse

/-- Python `s.strip()` (whitespace). -/
def pyStrip (s : String) : String :=
  String.mk (pyStripChars wsSet s.data)

/-- Python `s.replace(pat, rep)` for non-empty `pat`: left-to-right,
non-overlapping replacement of every occurrence.  Fuel-bounded with
`fuel = s.length` (each step consumes at least one character). -/
def pyReplaceGo (pat rep : List Char) : Nat → List Char → List Char
  | 0, inp => inp
  | fuel + 1, inp =>
      match inp with
      | [] => []
      | c :: rest =>
          if !pat.isEmpty && pfxEq pat inp then
            rep ++ pyReplaceGo pat rep fuel (inp.drop pat.length)
          else
            c :: pyReplaceGo pat rep fuel rest

/-- Python `s.replace(pat, rep)` (non-empty `pat`). -/
def pyReplace (s pat rep : List Char) : List Char :=
  pyReplaceGo pat rep s.length s

/-! ## A small regex engine for the `re.sub` patterns of the sanitizer

The sanitizer `_fix_generated_manim_code` uses a fixed battery of
`re.sub` patterns.  Every quantifier in those patterns applies to a single
character class, so the following pattern AST (sequences of literals,
single-character classes with greedy quantifiers, capture groups,
two-way alternation and negative literal lookbehind) covers them exactly.
The matcher below mirrors Python's backtracking search order: greedy
quantifiers try the longest extent first, alternatives are tried left to
right, and `reSub` scans for the leftmost match and substitutes
non-overlapping occurrences left to right over the original text. -/

/-- Pattern element. -/
inductive RE where
  /-- a literal character sequence -/
  | lit : List Char → RE
  /-- exactly one character of a class -/
  | one : (Char → Bool) → RE
  /-- `c*` : zero or more characters of a class, greedy -/
  | star : (Char → Bool) → RE
  /-- `c+` : one or more characters of a class, greedy -/
  | plus : (Char → Bool) → RE
  /-- `c?` : an optional character of a class, greedy -/
  | opt : (Char → Bool) → RE
  /-- a capture group (index 1 or 2) wrapping a sub-pattern -/
  | grp : Nat → List RE → RE
  /-- two alternatives, tried left to right -/
  | alt2 : List RE → List RE → RE
  /-- negative lookbehind on a literal, `(?<!t)` -/
  | nlb : List Char → RE
  /-- `^` under `re.MULTILINE`: start of the string or a position right
  after a newline; consumes nothing -/
  | bol : RE
  /-- `$` under `re.MULTILINE`: end of the string or a position right
  before a newline; consumes nothing -/
  | eol : RE

/-- Captured groups (the sanitizer's patterns use at most two). -/
structure Caps where
  g1 : List Char
  g2 : List Char

/-- No captures yet. -/
def emptyCaps : Caps := ⟨[], []⟩

/-- Record group `n`. -/
def setCap (n : Nat) (v : List Char) (c : Caps) : Caps :=
  if n = 1 then { c with g1 := v } else { c with g2 := v }

/-- Read group `n`. -/
def getCap (n : Nat) (c : Caps) : List Char :=
  if n = 1 then c.g1 else c.g2

/-- Length of the maximal run of class characters at the front of the
input (the greedy first try of a quantifier). -/
def charRun (cond : Char → Bool) : List Char → Nat
  | [] => 0
  | c :: rest => if cond c then charRun cond rest + 1 else 0

/-- Try `f n`, `f (n-1)`, ..., `f 0` and return the first success:
the backtracking order of a greedy single-character-class quantifier. -/
def starTry (f : Nat → Option (List Char × Caps)) : Nat → Option (List Char × Caps)
  | 0 => f 0
  | n + 1 =>
      match f (n + 1) with
      | some r => some r
      | none => starTry f n

/-- Match a pattern sequence against `inp`.  `past` holds the original
characters before the current position in reverse order (consulted by
lookbehind), `k` is the success continuation receiving the rest of the
input, the updated `past` and the captures.  The `fuel` argument only
bounds the recursion depth through the pattern structure (one unit per
pattern element or nesting level, never per input character), so any fuel
beyond the pattern's size is enough; the engine is always called with far
more. -/
def matchSeq : Nat → List RE → List Char → List Char → Caps →
    (List Char → List Char → Caps → Option (List Char × Caps)) →
    Option (List Char × Caps)
  | 0, _, _, _, _, _ => none
  | _ + 1, [], inp, past, caps, k => k inp past caps
  | fuel + 1, RE.lit t :: rest, inp, past, caps, k =>
      if pfxEq t inp then
        matchSeq fuel rest (inp.drop t.length) ((inp.take t.length).reverse ++ past) caps k
      else none
  | fuel + 1, RE.one cond :: rest, inp, past, caps, k =>
      match inp with
      | [] => none
      | a :: as => if cond a then matchSeq fuel rest as (a :: past) caps k else none
  | fuel + 1, RE.star cond :: rest, inp, past, caps, k =>
      starTry (fun n => matchSeq fuel rest (inp.drop n) ((inp.take n).reverse ++ past) caps k)
        (charRun cond inp)
  | fuel + 1, RE.plus cond :: rest, inp, past, caps, k =>
      match inp with
      | [] => none
      | a :: as =>
          if cond a then
            starTry
              (fun n => matchSeq fuel rest (as.drop n) ((as.take n).reverse ++ (a :: past)) caps k)
              (charRun cond as)
          else none
  | fuel + 1, RE.opt cond :: rest, inp, past, caps, k =>
      match inp with
      | [] => matchSeq fuel rest inp past caps k
      | a :: as =>
          if cond a then
            match matchSeq fuel rest as (a :: past) caps k with
            | some r => some r
            | none => matchSeq fuel rest inp past caps k
          else matchSeq fuel rest inp past caps k
  | fuel + 1, RE.grp n sub :: rest, inp, past, caps, k =>
      matchSeq fuel sub inp past caps (fun inp2 past2 caps2 =>
        matchSeq fuel rest inp2 past2 (setCap n (inp.take (inp.length - inp2.length)) caps2) k)
  | fuel + 1, RE.alt2 p q :: rest, inp, past, caps, k =>
      match matchSeq fuel p inp past caps (fun i pa ca => matchSeq fuel rest i pa ca k) with
      | some r => some r
      | none => matchSeq fuel q inp past caps (fun i pa ca => matchSeq fuel rest i pa ca k)
  | fuel + 1, RE.nlb t :: rest, inp, past, caps, k =>
      if pfxEq t.reverse past then none else matchSeq fuel rest inp past caps k
  | fuel + 1, RE.bol :: rest, inp, past, caps, k =>
      match past with
      | [] => matchSeq fuel rest inp past caps k
      | c :: _ => if c = '\n' then matchSeq fuel rest inp past caps k else none
  | fuel + 1, RE.eol :: rest, inp, past, caps, k =>
      match inp with
      | [] => matchSeq fuel rest inp past caps k
      | c :: _ => if c = '\n' then matchSeq fuel rest inp past caps k else none

/-- Fuel passed to the matcher; far larger than any sanitizer pattern's
size (the largest pattern has fewer than 20 elements). -/
def engineFuel : Nat := 1000

/-- Try to match pattern `p` at the current position; on success return
the number of characters consumed and the captures. -/
def tryMatchAt (p : List RE) (inp past : List Char) : Option (Nat × Caps) :=
  match matchSeq engineFuel p inp past emptyCaps (fun i _ c => some (i, c)) with
  | some (remaining, caps) => some (inp.length - remaining.length, caps)
  | none => none

/-- Replacement template: literal text interleaved with group references
(`\1`, `\2`). -/
inductive Tmpl where
  | txt : List Char → Tmpl
  | ref : Nat → Tmpl

/-- Instantiate a replacement template with the captures of a match. -/
def applyTmpl (caps : Caps) : List Tmpl → List Char
  | [] => []
  | Tmpl.txt t :: rest => t ++ applyTmpl caps rest
  | Tmpl.ref n :: rest => getCap n caps ++ applyTmpl caps rest

/-- `re.sub` body: scan left to right over the original text, replacing
each leftmost non-overlapping match.  `past` carries the original
characters already passed (lookbehind examines the original string, as in
Python).  Every sanitizer pattern contains a non-empty literal, so a match
always consumes at least one character; the zero-consumption guard is
unreachable and only keeps the fuel argument honest
(`fuel = s.length` suffices since every step consumes a character). -/
def reSubGo (p : List RE) (repl : List Tmpl) : Nat → List Char → List Char → List Char
  | 0, _, inp => inp
  | fuel + 1, past, inp =>
      match inp with
      | [] => []
      | c :: rest =>
          match tryMatchAt p inp past with
          | some (n, caps) =>
              if n = 0 then c :: reSubGo p repl fuel (c :: past) rest
              else applyTmpl caps repl ++ reSubGo p repl fuel ((inp.take n).reverse ++ past) (inp.drop n)
          | none => c :: reSubGo p repl fuel (c :: past) rest

/-- Python `re.sub(p, repl, s)` for the pattern subset above. -/
def reSub (p : List RE) (repl : List Tmpl) (s : List Char) : List Char :=
  reSubGo p repl s.length [] s

/-- Python `re.sub(p, repl, s, flags=re.MULTILINE)` for a pattern of the
shape `^...$` in which no element can match a newline (fixes 14 and 15,
whose bodies are `.*X.*` with `.` excluding `'\n'`): a match can then
never extend past a line, so a line that matches the (anchor-free)
pattern from its start is replaced whole and all other lines are kept.
Multiline patterns containing `\s*` (fixes 21 and 22) are NOT of this
shape — `\s` matches `'\n'`, so a match may absorb preceding blank
lines — and are embedded with the explicit `RE.bol`/`RE.eol` anchors
instead. -/
def lineSub (p : List RE) (replacement : List Char) (s : List Char) : List Char :=
  joinLines ((splitLines s).map (fun line =>
    if (tryMatchAt p line []).isSome then replacement else line))

/-! ## Character classes used by the sanitizer patterns (ASCII model) -/

/-- `[^)]` -/
def notRp (c : Char) : Bool := c != ')'

/-- `[^(]` -/
def notLp (c : Char) : Bool := c != '('

/-- `[^,)]` -/
def notCommaRp (c : Char) : Bool := c != ',' && c != ')'

/-- `\d` -/
def digitCh (c : Char) : Bool := decide ('0' ≤ c) && decide (c ≤ '9')

/-- `[A-Z_]` -/
def upperUnd (c : Char) : Bool := (decide ('A' ≤ c) && decide (c ≤ 'Z')) || c == '_'

/-- `[A-Z_0-9]` -/
def upperUndDig (c : Char) : Bool := upperUnd c || digitCh c

/-- `[a-z_]` -/
def lowerUnd (c : Char) : Bool := (decide ('a' ≤ c) && decide (c ≤ 'z')) || c == '_'

/-- `[a-zA-Z_]` -/
def alphaUnd (c : Char) : Bool :=
  (decide ('A' ≤ c) && decide (c ≤ 'Z')) || (decide ('a' ≤ c) && decide (c ≤ 'z')) || c == '_'

/-- `\w` (ASCII) -/
def wordCh (c : Char) : Bool := alphaUnd c || digitCh c

/-- `\s` (ASCII) -/
def wsCh (c : Char) : Bool := charInL wsSet c

/-- `.` (anything but a newline) -/
def anyCh (c : Char) : Bool := c != '\n'

/-- `,` as a class (for `,?`) -/
def isCommaCh (c : Char) : Bool := c == ','

/-- Shorthand for a literal pattern element. -/
def rlit (s : String) : RE := RE.lit s.data

/-- Shorthand for literal replacement text. -/
def ttxt (s : String) : Tmpl := Tmpl.txt s.data

/-! ## `_fix_generated_manim_code` (manim_ai_generator.py, lines 306-441)

Each `fixN` below embeds the correspondingly numbered rewrite of the
source, in source order.  Python patterns are quoted in the comments. -/

/-- Fix 1: `re.sub(r'self\.play\(self\.camera\.animate\.set_background_color\(([^)]+)\)',
r'self.camera.background_color = \1\n        self.wait(0.5)\n        # Background changed', code)` -/
def fix1 (s : List Char) : List Char :=
  reSub
    [rlit "self.play(self.camera.animate.set_background_color(",
     RE.grp 1 [RE.plus notRp], rlit ")"]
    [ttxt "self.camera.background_color = ", Tmpl.ref 1,
     ttxt "\n        self.wait(0.5)\n        # Background changed"]
    s

/-- Fix 2: `code.replace('self.camera.animate', '# self.camera.animate (invalid)')` -/
def fix2 (s : List Char) : List Char :=
  pyReplace s (str2l "self.camera.animate") (str2l "# self.camera.animate (invalid)")

/-- Fix 3: `re.sub(r'self\.play\(\s*self\.camera\.background_color = ([^,)]+)',
r'self.camera.background_color = \1\n        self.play(', code)` -/
def fix3 (s : List Char) : List Char :=
  reSub
    [rlit "self.play(", RE.star wsCh, rlit "self.camera.background_color = ",
     RE.grp 1 [RE.plus notCommaRp]]
    [ttxt "self.camera.background_color = ", Tmpl.ref 1, ttxt "\n        self.play("]
    s

/-- Fix 4: `code.replace('fill_fill_opacity=', 'fill_opacity=')` and
`code.replace('stroke_stroke_opacity=', 'stroke_opacity=')` -/
def fix4 (s : List Char) : List Char :=
  pyReplace (pyReplace s (str2l "fill_fill_opacity=") (str2l "fill_opacity="))
    (str2l "stroke_stroke_opacity=") (str2l "stroke_opacity=")

/-- Fix 5: `re.sub(r'(?<!fill_)(?<!stroke_)opacity=', 'fill_opacity=', code)` -/
def fix5 (s : List Char) : List Char :=
  reSub [RE.nlb (str2l "fill_"), RE.nlb (str2l "stroke_"), rlit "opacity="]
    [ttxt "fill_opacity="] s

/-- Fix 6: `code.replace('TracedPath(', '# TracedPath not supported - use Circle instead\n        # Circle(')` -/
def fix6 (s : List Char) : List Char :=
  pyReplace s (str2l "TracedPath(")
    (str2l "# TracedPath not supported - use Circle instead\n        # Circle(")

/-- Fix 7, first rewrite: `re.sub(r'Dot\s*\(\s*[A-Z_]+[A-Z_0-9]*\s*,\s*', r'Dot(', code)` -/
def fix7a (s : List Char) : List Char :=
  reSub
    [rlit "Dot", RE.star wsCh, rlit "(", RE.star wsCh,
     RE.plus upperUnd, RE.star upperUndDig, RE.star wsCh, rlit ",", RE.star wsCh]
    [ttxt "Dot("] s

/-- Fix 7, second rewrite:
`re.sub(r'Dot\s*\(\s*(?:moving_dot\.get_center\(\)|[a-z_]+\.get_center\(\))\s*,\s*', r'Dot(', code)` -/
def fix7b (s : List Char) : List Char :=
  reSub
    [rlit "Dot", RE.star wsCh, rlit "(", RE.star wsCh,
     RE.alt2 [rlit "moving_dot.get_center()"] [RE.plus lowerUnd, rlit ".get_center()"],
     RE.star wsCh, rlit ",", RE.star wsCh]
    [ttxt "Dot("] s

/-- Fix 8: `code.replace('config.frame_width', 'FRAME_WIDTH')` and
`code.replace('config.frame_height', 'FRAME_HEIGHT')` -/
def fix8 (s : List Char) : List Char :=
  pyReplace (pyReplace s (str2l "config.frame_width") (str2l "FRAME_WIDTH"))
    (str2l "config.frame_height") (str2l "FRAME_HEIGHT")

/-- Fix 9: replacement of the six invalid colour names, in the source
dictionary's insertion order. -/
def fix9 (s : List Char) : List Char :=
  pyReplace (pyReplace (pyReplace (pyReplace (pyReplace (pyReplace s
    (str2l "GRAY_A") (str2l "GRAY"))
    (str2l "GREY_A") (str2l "GRAY"))
    (str2l "LIGHT_GRAY") (str2l "GRAY"))
    (str2l "LIGHT_GREY") (str2l "GRAY"))
    (str2l "DARK_GRAY") (str2l "GRAY"))
    (str2l "DARK_GREY") (str2l "GRAY")

/-- Fix 10: `re.sub(r'(Dot\([^)]*\))\.move_to\([^)]*\)', r'\1', code)` and the
same rewrite for `Circle`. -/
def fix10 (s : List Char) : List Char :=
  reSub
    [RE.grp 1 [rlit "Circle(", RE.star notRp, rlit ")"], rlit ".move_to(", RE.star notRp, rlit ")"]
    [Tmpl.ref 1]
    (reSub
      [RE.grp 1 [rlit "Dot(", RE.star notRp, rlit ")"], rlit ".move_to(", RE.star notRp, rlit ")"]
      [Tmpl.ref 1] s)

/-- Fix 11: `re.sub(r'DashedLine\(([^)]+)\)\.set_stroke\(width=(\d+), fill_opacity=',
r'DashedLine(\1).set_stroke(width=\2, opacity=', code)` -/
def fix11 (s : List Char) : List Char :=
  reSub
    [rlit "DashedLine(", RE.grp 1 [RE.plus notRp], rlit ").set_stroke(width=",
     RE.grp 2 [RE.plus digitCh], rlit ", fill_opacity="]
    [ttxt "DashedLine(", Tmpl.ref 1, ttxt ").set_stroke(width=", Tmpl.ref 2, ttxt ", opacity="]
    s

/-- Fix 12: `re.sub(r'self\.wait\(0\)', r'self.wait(0.5)', code)` and
`re.sub(r'self\.wait\(0\.0\)', r'self.wait(0.5)', code)` (both literal). -/
def fix12 (s : List Char) : List Char :=
  reSub [rlit "self.wait(0.0)"] [ttxt "self.wait(0.5)"]
    (reSub [rlit "self.wait(0)"] [ttxt "self.wait(0.5)"] s)

/-- Fix 13: `code.replace('.get_vertex_coords()', '.get_vertices()')` -/
def fix13 (s : List Char) : List Char :=
  pyReplace s (str2l ".get_vertex_coords()") (str2l ".get_vertices()")

/-- Fix 14: `re.sub(r'^.*normalize\(.*$', '# normalize() removed - not available in Manim v0.19',
code, flags=re.MULTILINE)` — every line containing `normalize(` is replaced whole. -/
def fix14 (s : List Char) : List Char :=
  lineSub [RE.star anyCh, rlit "normalize(", RE.star anyCh]
    (str2l "# normalize() removed - not available in Manim v0.19") s

/-- Fix 15: the same multiline rewrite for `rotate_vector(`. -/
def fix15 (s : List Char) : List Char :=
  lineSub [RE.star anyCh, rlit "rotate_vector(", RE.star anyCh]
    (str2l "# rotate_vector() removed - not available in Manim v0.19") s

/-- Fix 16: `re.sub(r'\.set_fill\(\s*fill_opacity=', '.set_fill(opacity=', code)` then
`re.sub(r'\.set_fill\(([^,)]+),\s*fill_opacity=', r'.set_fill(\1, opacity=', code)` -/
def fix16 (s : List Char) : List Char :=
  reSub
    [rlit ".set_fill(", RE.grp 1 [RE.plus notCommaRp], rlit ",", RE.star wsCh, rlit "fill_opacity="]
    [ttxt ".set_fill(", Tmpl.ref 1, ttxt ", opacity="]
    (reSub [rlit ".set_fill(", RE.star wsCh, rlit "fill_opacity="] [ttxt ".set_fill(opacity="] s)

/-- Fix 17: the four `set_stroke` rewrites, in source order:
`re.sub(r'\.set_stroke\(([^)]*),\s*fill_opacity=[^,)]+', r'.set_stroke(\1', code)`,
`re.sub(r'\.set_stroke\(\s*fill_opacity=[^,)]+,?\s*', '.set_stroke(', code)`,
`re.sub(r'\.set_stroke\(\s*stroke_opacity=', '.set_stroke(opacity=', code)`,
`re.sub(r'\.set_stroke\(([^,)]+),\s*stroke_opacity=', r'.set_stroke(\1, opacity=', code)`. -/
def fix17 (s : List Char) : List Char :=
  reSub
    [rlit ".set_stroke(", RE.grp 1 [RE.plus notCommaRp], rlit ",", RE.star wsCh, rlit "stroke_opacity="]
    [ttxt ".set_stroke(", Tmpl.ref 1, ttxt ", opacity="]
    (reSub [rlit ".set_stroke(", RE.star wsCh, rlit "stroke_opacity="] [ttxt ".set_stroke(opacity="]
      (reSub
        [rlit ".set_stroke(", RE.star wsCh, rlit "fill_opacity=", RE.plus notCommaRp,
         RE.opt isCommaCh, RE.star wsCh]
        [ttxt ".set_stroke("]
        (reSub
          [rlit ".set_stroke(", RE.grp 1 [RE.star notRp], rlit ",", RE.star wsCh,
           rlit "fill_opacity=", RE.plus notCommaRp]
          [ttxt ".set_stroke(", Tmpl.ref 1] s)))

/-- Fix 18: `re.sub(r'(Tex|MathTex|Matrix)\(',
r'Text(  # \1 replaced with Text\n        # Text(', code)` -/
def fix18 (s : List Char) : List Char :=
  reSub
    [RE.grp 1 [RE.alt2 [rlit "Tex"] [RE.alt2 [rlit "MathTex"] [rlit "Matrix"]]], rlit "("]
    [ttxt "Text(  # ", Tmpl.ref 1, ttxt " replaced with Text\n        # Text("]
    s

/-- Fix 19: for each invalid parameter `p` in `['uv_resolution=',
'dash_length=', 'angle_in_degrees=']`, `re.sub(rf'{p}[^,)]+,?\s*', '', code)`. -/
def fix19pat (p : String) : List RE :=
  [rlit p, RE.plus notCommaRp, RE.opt isCommaCh, RE.star wsCh]

/-- Fix 19 applied for the three parameters, in source order. -/
def fix19 (s : List Char) : List Char :=
  reSub (fix19pat "angle_in_degrees=") []
    (reSub (fix19pat "dash_length=") []
      (reSub (fix19pat "uv_resolution=") [] s))

/-- Fix 20: `re.sub(r'from manim import normalize_vector', '# Invalid import removed', code)`
then `re.sub(r'import normalize_vector', '# Invalid import removed', code)` (both literal). -/
def fix20 (s : List Char) : List Char :=
  reSub [rlit "import normalize_vector"] [ttxt "# Invalid import removed"]
    (reSub [rlit "from manim import normalize_vector"] [ttxt "# Invalid import removed"] s)

/-- Fix 21: `re.sub(r'^\s*\w+\s*=.*normalize\(.*$', '# Line removed - normalize() not available',
code, flags=re.MULTILINE)` and the same for `rotate_vector(`.
The two `\s*` cross newlines in CPython (a match starting at a line
start may absorb preceding blank lines, and the run before `=` may span
a line break), so these are whole-string substitutions with multiline
anchors, not per-line rewrites. -/
def fix21 (s : List Char) : List Char :=
  reSub
    [RE.bol, RE.star wsCh, RE.plus wordCh, RE.star wsCh, rlit "=", RE.star anyCh,
     rlit "rotate_vector(", RE.star anyCh, RE.eol]
    [ttxt "# Line removed - rotate_vector() not available"]
    (reSub
      [RE.bol, RE.star wsCh, RE.plus wordCh, RE.star wsCh, rlit "=", RE.star anyCh,
       rlit "normalize(", RE.star anyCh, RE.eol]
      [ttxt "# Line removed - normalize() not available"] s)

/-- Fix 22: `re.sub(r'^\s*normal_vector.*$',
'normal_vector_c = UP  # Simplified - complex rotation removed', code, flags=re.MULTILINE)`.
As in fix 21, the leading `\s*` crosses newlines in CPython, so a match
may absorb whitespace-only material (blank lines included) preceding the
`normal_vector` line; hence the multiline-anchor embedding. -/
def fix22 (s : List Char) : List Char :=
  reSub [RE.bol, RE.star wsCh, rlit "normal_vector", RE.star anyCh, RE.eol]
    [ttxt "normal_vector_c = UP  # Simplified - complex rotation removed"] s

/-- Fix 23: `re.sub(r'\.get_frame\(\)', '.get_center()  # get_frame() replaced', code)` (literal). -/
def fix23 (s : List Char) : List Char :=
  reSub [rlit ".get_frame()"] [ttxt ".get_center()  # get_frame() replaced"] s

/-- Fix 24: `re.sub(r'(\.animate\.[^(]+\([^)]*\))\.[a-zA-Z_]+\(',
r'\1  # Chaining removed\n        # .', code)` -/
def fix24 (s : List Char) : List Char :=
  reSub
    [RE.grp 1 [rlit ".animate.", RE.plus notLp, rlit "(", RE.star notRp, rlit ")"],
     rlit ".", RE.plus alphaUnd, rlit "("]
    [Tmpl.ref 1, ttxt "  # Chaining removed\n        # ."]
    s

/-- `_fix_generated_manim_code(code)` (manim_ai_generator.py, lines 306-441):
the twenty-four rewrites applied in source order. -/
def _fix_generated_manim_code (code : String) : String :=
  String.mk (fix24 (fix23 (fix22 (fix21 (fix20 (fix19 (fix18 (fix17 (fix16 (fix15
    (fix14 (fix13 (fix12 (fix11 (fix10 (fix9 (fix8 (fix7b (fix7a (fix6 (fix5 (fix4
    (fix3 (fix2 (fix1 code.data)))))))))))))))))))))))))

/-! ## `extract_narration` (manim_ai_generator.py, lines 443-452) -/

/-- The fixed narration marker token. -/
def narrMarker : List Char := str2l "# NARRATION:"

/-- The two quote characters stripped from a narration remainder
(Python `.strip('"\'')`). -/
def quoteSet : List Char := ['"', '\'']

/-- The fixed fallback sentence. -/
def defaultNarration : String := "Watch this educational animation."

/-- One line's contribution: Python
`if '# NARRATION:' in line: line.split('# NARRATION:')[1].strip().strip('"\'')`. -/
def narrLineCode (line : List Char) : Option (List Char) :=
  if containsSub narrMarker line then
    some (pyStripChars quoteSet (pyStripChars wsSet ((pySplit narrMarker line).getD 1 [])))
  else none

/-- `extract_narration(code)`: collect the marker lines' contents, join
with a single space, fall back to the fixed sentence when the join is
empty (Python truthiness of the joined string). -/
def extract_narration (code : String) : String :=
  let narration := List.intercalate (str2l " ") ((splitLines code.data).filterMap narrLineCode)
  if narration.isEmpty then defaultNarration else String.mk narration

/-- One line's contribution following the spec's words: the whole
remainder of the line after the (first occurrence of the) marker,
quote-stripped.  This is the spec-side definition used to compare against
the code's `split(...)[1]`, which stops at a second marker occurrence. -/
def narrLineSpec (line : List Char) : Option (List Char) :=
  if containsSub narrMarker line then
    some (pyStripChars quoteSet (pyStripChars wsSet
      (match splitFirst narrMarker line with
       | some p => p.2
       | none => [])))
  else none

/-- Narration extraction as described by the spec sentence: full
remainders of marker lines, joined with single spaces, with the same
fallback. -/
def extractNarrationSpec (code : String) : String :=
  let narration := List.intercalate (str2l " ") ((splitLines code.data).filterMap narrLineSpec)
  if narration.isEmpty then defaultNarration else String.mk narration

/-! ## `detect_scene_type` (manim_ai_generator.py, lines 54-81) -/

/-- Keywords that require 3D (source list, in order). -/
def require_3d : List String :=
  ["cube", "sphere", "pyramid", "cone", "cylinder", "3d", "three dimensional",
   "solid", "volume", "surface", "rotation in space", "spatial", "dimension",
   "polyhedron", "prism", "torus", "geometry 3d"]

/-- Keywords that work best in 2D (source list, in order). -/
def better_2d : List String :=
  ["function", "graph", "equation", "chart", "diagram", "flow", "tree",
   "network", "circle", "square", "triangle", "percentage", "angle",
   "algebra", "fraction", "ratio", "animation", "step by step"]

/-- Python `str.lower()` (ASCII model). -/
def pyLower (s : String) : String := String.mk (s.data.map Char.toLower)

/-- `d3_score = sum(1 for keyword in require_3d if keyword in prompt_lower)`. -/
def d3_score (user_prompt : String) : Nat :=
  require_3d.countP (fun k => containsSub k.data (pyLower user_prompt).data)

/-- `d2_score = sum(1 for keyword in better_2d if keyword in prompt_lower)`. -/
def d2_score (user_prompt : String) : Nat :=
  better_2d.countP (fun k => containsSub k.data (pyLower user_prompt).data)

/-- `detect_scene_type`: `use_3d = d3_score > d2_score and d3_score > 0`. -/
def detect_scene_type (user_prompt : String) : Bool :=
  decide (d3_score user_prompt > d2_score user_prompt) && decide (d3_score user_prompt > 0)

/-! ## `_call_gemini_with_retry` (manim_ai_generator.py, lines 31-52)

The LLM collaborator is an oracle mapping the attempt index to either a
response text or the string of the exception it raises.  The function's
observable behaviour is its returned/raised value together with the list
of `time.sleep` durations it performs. -/

/-- Result of one `self.model.generate_content(prompt)` call. -/
inductive LLMResult where
  /-- the call returned a response with this text -/
  | ok : String → LLMResult
  /-- the call raised an exception whose string is the payload -/
  | err : String → LLMResult

/-- `'429' in error_str or 'Resource exhausted' in error_str`. -/
def isRateLimitError (msg : String) : Bool :=
  containsSub (str2l "429") msg.data || containsSub (str2l "Resource exhausted") msg.data

/-- The fatal message raised when the retries are exhausted. -/
def rateLimitFatalMsg : String :=
  "API rate limit exceeded. Please wait a few minutes and try again."

/-- The retry loop (`for attempt in range(max_retries)`), returning the
result (`.ok` = returned text, `.error` = raised message) together with
the sleeps performed.  `rem` is the number of remaining loop iterations;
the final `raise Exception("Failed after all retries")` after the loop is
only reachable when `max_retries = 0`. -/
def callGeminiGo (f : Nat → LLMResult) (max_retries : Nat) :
    Nat → Nat → Except String String × List Nat
  | _, 0 => (Except.error "Failed after all retries", [])
  | attempt, rem + 1 =>
      match f attempt with
      | LLMResult.ok t => (Except.ok (pyStrip t), [])
      | LLMResult.err m =>
          if isRateLimitError m then
            if attempt < max_retries - 1 then
              let r := callGeminiGo f max_retries (attempt + 1) rem
              (r.1, (2 ^ attempt * 2) :: r.2)
            else (Except.error rateLimitFatalMsg, [])
          else (Except.error m, [])

/-- `_call_gemini_with_retry(prompt, max_retries=3)`; the prompt is
absorbed into the oracle `f`. -/
def _call_gemini_with_retry (f : Nat → LLMResult) (max_retries : Nat) :
    Except String String × List Nat :=
  callGeminiGo f max_retries 0 max_retries

/-! ## Video-load retry and FFmpeg fallback
(`add_audio_to_video`, manim_ai_generator.py, lines 720-745) -/

/-- Which merge strategy produced the stage's outcome. -/
inductive MergePath where
  /-- the in-process MoviePy path (video loaded successfully) -/
  | moviepy : MergePath
  /-- the `_add_audio_with_ffmpeg` fallback -/
  | ffmpegFallback : MergePath
deriving DecidableEq

/-- The `for attempt in range(max_retries)` loop around
`VideoFileClip(video_path)`: `openF` is the oracle for each open attempt
(`.ok` = clip loaded, `.error` = exception message), `fallback` the result
of `_add_audio_with_ffmpeg` (`.error` = it raised).  Returns the stage
outcome and the sleeps performed.  The `video is None` raise after the
loop is reachable only when `max_retries = 0`. -/
def addAudioLoadGo (openF : Nat → Except String Unit) (fallback : Except String Unit)
    (max_retries : Nat) : Nat → Nat → Except String MergePath × List Nat
  | _, 0 => (Except.error "Video failed to load", [])
  | attempt, rem + 1 =>
      match openF attempt with
      | Except.ok _ => (Except.ok MergePath.moviepy, [])
      | Except.error _ =>
          if attempt = max_retries - 1 then
            (fallback.map (fun _ => MergePath.ffmpegFallback), [])
          else
            let r := addAudioLoadGo openF fallback max_retries (attempt + 1) rem
            (r.1, 2 :: r.2)

/-- The load-with-fallback stage with the source's `max_retries = 3`. -/
def load_video_with_fallback (openF : Nat → Except String Unit)
    (fallback : Except String Unit) : Except String MergePath × List Nat :=
  addAudioLoadGo openF fallback 3 0 3

/-! ## Renderer subprocess timeout (`execute_manim`,
manim_ai_generator.py, lines 610-625 and 687-689) -/

/-- One renderer subprocess outcome. -/
inductive RenderOutcome where
  /-- the process completed with this return code and captured stderr -/
  | completed : Int → String → RenderOutcome
  /-- `subprocess.TimeoutExpired` was raised -/
  | timedOut : RenderOutcome

/-- `timeout = 120 if use_3d else 60` (line 612). -/
def manimTimeout (use_3d : Bool) : Nat := if use_3d then 120 else 60

/-- `timeout_used = 180 if use_3d else 120` (line 688) — the number
reported in the timeout message. -/
def timeoutMsgSeconds (use_3d : Bool) : Nat := if use_3d then 180 else 120

/-- The renderer-invocation part of `execute_manim`: the subprocess runs
exactly once (`runner 0`); a timeout raises the timed-out message, a
non-zero exit raises `Manim failed: <stderr>`, success proceeds to the
artifact search (abstracted as `.ok`). -/
def execute_manim_render (use_3d : Bool) (runner : Nat → RenderOutcome) :
    Except String Unit :=
  match runner 0 with
  | RenderOutcome.timedOut =>
      Except.error ("Manim execution timed out (>" ++ toString (timeoutMsgSeconds use_3d) ++ "s)")
  | RenderOutcome.completed rc stderrText =>
      if rc ≠ 0 then Except.error ("Manim failed: " ++ stderrText) else Except.ok ()

/-! ## Artifact locator (`execute_manim`, manim_ai_generator.py,
lines 637-652) -/

/-- One candidate media file: its path and modification time
(`st_mtime`, modelled as a rational). -/
structure MediaFile where
  path : String
  mtime : ℚ
deriving DecidableEq

/-- Python `max(recent_videos, key=lambda p: p.stat().st_mtime)`:
the first element of maximal key (later elements replace the current best
only when strictly greater). -/
def pyMaxByMtime : List MediaFile → Option MediaFile
  | [] => none
  | x :: xs => some (xs.foldl (fun best y => if y.mtime > best.mtime then y else best) x)

/-- The locator: filter the scanned files to those whose modification
time is within 60 seconds of the scan time
(`current_time - v.stat().st_mtime < 60`), then pick the most recent. -/
def locate_recent_video (current_time : ℚ) (video_files : List MediaFile) :
    Option MediaFile :=
  pyMaxByMtime (video_files.filter (fun v => decide (current_time - v.mtime < 60)))

/-! ## Duration reconciler (`add_audio_to_video`,
manim_ai_generator.py, lines 755-790) -/

/-- What happened to the video track in the target-duration policy. -/
inductive VideoAdjust where
  /-- `video.subclip(0, max_duration)` -/
  | trimmed : VideoAdjust
  /-- freeze-frame extension to `min_duration` -/
  | extended : VideoAdjust
  /-- within bounds, kept as-is -/
  | unchanged : VideoAdjust
deriving DecidableEq

/-- What happened to the audio track. -/
inductive AudioAdjust where
  /-- `audio.subclip(0, target_duration)` -/
  | trimmed : AudioAdjust
  /-- zero-amplitude silence of the given length appended at
  `audio.duration` -/
  | padded : ℚ → AudioAdjust
  /-- equal durations, kept as-is -/
  | unchanged : AudioAdjust
deriving DecidableEq

/-- Observable outcome of the reconciliation. -/
structure ReconcileResult where
  /-- the common target duration -/
  target : ℚ
  /-- video-side policy action -/
  video_adjust : VideoAdjust
  /-- audio-side policy action -/
  audio_adjust : AudioAdjust
  /-- video duration after the final `video.set_duration(target_duration)` -/
  video_duration : ℚ
  /-- audio duration after the final `audio.set_duration(target_duration)` -/
  audio_duration : ℚ
deriving DecidableEq

/-- The reconciliation policy of `add_audio_to_video`:
`min_duration = 30.0`, `max_duration = 60.0`; trim the video above the
upper bound, freeze-frame-extend it below the lower bound; trim the audio
above the target, pad it with trailing silence below the target; finally
force both tracks to exactly the target. -/
def reconcile_durations (video_duration audio_duration : ℚ) : ReconcileResult :=
  let min_duration : ℚ := 30
  let max_duration : ℚ := 60
  let td : ℚ × VideoAdjust :=
    if video_duration > max_duration then (max_duration, VideoAdjust.trimmed)
    else if video_duration < min_duration then (min_duration, VideoAdjust.extended)
    else (video_duration, VideoAdjust.unchanged)
  let target_duration := td.1
  let aa : AudioAdjust :=
    if audio_duration > target_duration then AudioAdjust.trimmed
    else if audio_duration < target_duration then
      AudioAdjust.padded (target_duration - audio_duration)
    else AudioAdjust.unchanged
  { target := target_duration, video_adjust := td.2, audio_adjust := aa,
    video_duration := target_duration, audio_duration := target_duration }

/-! ## API input validation (`app.py`, `generate_video`, lines 39-95) -/

/-- The request body as the handler sees it: `none` = no/unparseable or
falsy JSON body, `some none` = JSON object without a `text` field,
`some (some t)` = the `text` field's string value. -/
structure ApiRequest where
  body : Option (Option String)

/-- The `/api/generate` handler: returns the HTTP status code and whether
`generator.generate_video` (the pipeline, hence every external
collaborator) was invoked.  `generator_ok` models whether the module-level
generator initialised; `pipeline` the pipeline's outcome when invoked. -/
def api_generate_video (generator_ok : Bool) (pipeline : Except String Unit)
    (req : ApiRequest) : Nat × Bool :=
  if !generator_ok then (500, false)
  else
    match req.body with
    | none => (400, false)
    | some none => (400, false)
    | some (some text) =>
        let user_prompt := pyStrip text
        if user_prompt = "" then (400, false)
        else if user_prompt.length < 10 then (400, false)
        else
          match pipeline with
          | Except.ok _ => (200, true)
          | Except.error _ => (500, true)

/-! ## Output filename derivation (`generate_video`,
manim_ai_generator.py, lines 850-852) -/

/-- The character class kept by `re.sub(r'[^\w\s-]', '', ...)`:
word characters, whitespace, and the hyphen. -/
def keepCh (c : Char) : Bool := wordCh c || wsCh c || c == '-'

/-- `re.sub(r'[^\w\s-]', '', user_prompt)[:50].strip().replace(' ', '_')`.
Deleting every character outside the class is `List.filter keepCh`;
`.replace(' ', '_')` replaces single characters and is modelled
character-wise. -/
def deriveOutputName (user_prompt : String) : String :=
  String.mk (((pyStripChars wsSet ((user_prompt.data.filter keepCh).take 50)).map
    (fun c => if c = ' ' then '_' else c)))

/-! ## Helper lemmas -/

/-- Stripping characters from both ends yields a sublist. -/
theorem pyStripChars_sublist (cs s : List Char) : (pyStripChars cs s).Sublist s := by
  unfold pyStripChars
  have h1 : (s.dropWhile (charInL cs)).Sublist s := List.dropWhile_sublist _
  have h2 : ((s.dropWhile (charInL cs)).reverse.dropWhile (charInL cs)).Sublist
      (s.dropWhile (charInL cs)).reverse := List.dropWhile_sublist _
  have h3 := h2.reverse
  rw [List.reverse_reverse] at h3
  exact h3.trans h1

/-! ## C4 : scene-mode decision -/

/-- C4: for every topic string, the AUTO scene-mode decision returns 3D
exactly when the 3D keyword score strictly exceeds the 2D score and is
nonzero; equal scores (including both zero) yield 2D. -/
theorem detect_scene_type_spec (topic : String) :
    (detect_scene_type topic = true ↔
      (d2_score topic < d3_score topic ∧ 0 < d3_score topic)) ∧
    (d3_score topic = d2_score topic → detect_scene_type topic = false) := by
  constructor
  · simp [detect_scene_type]
  · intro h
    simp [detect_scene_type, h]

/-- Witness for C4 at a concrete topic with equal nonzero scores. -/
theorem detect_scene_type_spec_witness :
    d3_score "cube function" = 1 ∧ d2_score "cube function" = 1 ∧
    detect_scene_type "cube function" = false :=
  ⟨by decide, by decide, (detect_scene_type_spec "cube function").2 (by decide)⟩

/-! ## C10 : derived output filename -/

/-- C10: the derived output filename stem is at most 50 characters long
and never contains a path separator, a quote, or a dot. -/
theorem derive_output_name_spec (user_prompt : String) :
    (deriveOutputName user_prompt).length ≤ 50 ∧
    ∀ c ∈ (deriveOutputName user_prompt).data,
      c ≠ '/' ∧ c ≠ '\\' ∧ c ≠ '"' ∧ c ≠ '\'' ∧ c ≠ '.' := by
  constructor
  · show (List.map _ _).length ≤ 50
    rw [List.length_map]
    calc (pyStripChars wsSet ((user_prompt.data.filter keepCh).take 50)).length
        ≤ ((user_prompt.data.filter keepCh).take 50).length :=
          (pyStripChars_sublist _ _).length_le
      _ ≤ 50 := by
          rw [List.length_take]
          exact min_le_left _ _
  · intro c hc
    have hc' : c ∈ (pyStripChars wsSet ((user_prompt.data.filter keepCh).take 50)).map
        (fun c => if c = ' ' then '_' else c) := hc
    rw [List.mem_map] at hc'
    obtain ⟨b, hb, rfl⟩ := hc'
    have hb1 : b ∈ (user_prompt.data.filter keepCh).take 50 :=
      (pyStripChars_sublist _ _).subset hb
    have hb2 : b ∈ user_prompt.data.filter keepCh := (List.take_sublist _ _).subset hb1
    have hkeep : keepCh b = true := (List.mem_filter.mp hb2).2
    by_cases hsp : b = ' '
    · rw [if_pos hsp]
      exact ⟨by decide, by decide, by decide, by decide, by decide⟩
    · rw [if_neg hsp]
      refine ⟨?_, ?_, ?_, ?_, ?_⟩ <;> rintro rfl <;> exact absurd hkeep (by decide)

/-! ## C9 : API input validation -/

/-- C9: with the generator initialised, a request with a missing text
field, an all-whitespace text, or a stripped text shorter than 10
characters gets status 400 and the pipeline (hence every external
collaborator) is not invoked. -/
theorem api_generate_video_validation (pipeline : Except String Unit) (req : ApiRequest) :
    (req.body = none → api_generate_video true pipeline req = (400, false)) ∧
    (req.body = some none → api_generate_video true pipeline req = (400, false)) ∧
    (∀ t, req.body = some (some t) → (pyStrip t = "" ∨ (pyStrip t).length < 10) →
      api_generate_video true pipeline req = (400, false)) := by
  refine ⟨?_, ?_, ?_⟩
  · intro h; simp [api_generate_video, h]
  · intro h; simp [api_generate_video, h]
  · intro t h hvalid
    rcases hvalid with he | hl
    · simp [api_generate_video, h, he]
    · by_cases he : pyStrip t = ""
      · simp [api_generate_video, h, he]
      · simp [api_generate_video, h, he, hl]

/-- Witness for C9: a 5-character prompt is rejected with 400 and the
pipeline is not invoked. -/
theorem api_generate_video_validation_witness :
    api_generate_video true (Except.ok ()) ⟨some (some "  short  ")⟩ = (400, false) :=
  (api_generate_video_validation (Except.ok ()) ⟨some (some "  short  ")⟩).2.2
    "  short  " rfl (Or.inr (by decide))

/-! ## C8 : renderer timeout -/

/-- C8: the renderer wall-clock timeout is strictly shorter for 2D jobs
(60 s) than for 3D jobs (120 s); a timeout is classified as a fatal
timed-out error; and the renderer subprocess is invoked exactly once
(the outcome depends only on the first invocation — no automatic
retry). -/
theorem execute_manim_timeout_spec :
    manimTimeout false = 60 ∧ manimTimeout true = 120 ∧
    manimTimeout false < manimTimeout true ∧
    (∀ (use_3d : Bool) (runner : Nat → RenderOutcome),
      runner 0 = RenderOutcome.timedOut →
      execute_manim_render use_3d runner =
        Except.error ("Manim execution timed out (>" ++ toString (timeoutMsgSeconds use_3d) ++ "s)")) ∧
    (∀ (use_3d : Bool) (r r' : Nat → RenderOutcome), r 0 = r' 0 →
      execute_manim_render use_3d r = execute_manim_render use_3d r') := by
  refine ⟨rfl, rfl, by decide, ?_, ?_⟩
  · intro use_3d runner h
    simp [execute_manim_render, h]
  · intro use_3d r r' h
    simp only [execute_manim_render, h]

/-- Witness for C8: concrete timed-out 2D run. -/
theorem execute_manim_timeout_spec_witness :
    execute_manim_render false (fun _ => RenderOutcome.timedOut) =
      Except.error "Manim execution timed out (>120s)" := by
  rw [execute_manim_timeout_spec.2.2.2.1 false (fun _ => RenderOutcome.timedOut) rfl]
  rfl

/-! ## C6 : LLM retry loop -/

/-- C6: the LLM call is retried only on rate-limit errors ('429' or
'Resource exhausted' in the message): a non-rate-limit error is re-raised
immediately; the sleeps between the at most 3 attempts are 2 s then 4 s;
exhausting all 3 attempts on rate-limit errors raises the fatal
exceeded message; a successful call returns its stripped text with no
sleeps. -/
theorem call_gemini_retry_spec (f : Nat → LLMResult) :
    (∀ m, f 0 = LLMResult.err m → isRateLimitError m = false →
      _call_gemini_with_retry f 3 = (Except.error m, [])) ∧
    (∀ m0 m1, f 0 = LLMResult.err m0 → isRateLimitError m0 = true →
      f 1 = LLMResult.err m1 → isRateLimitError m1 = false →
      _call_gemini_with_retry f 3 = (Except.error m1, [2])) ∧
    (∀ m0 m1 m2, f 0 = LLMResult.err m0 → isRateLimitError m0 = true →
      f 1 = LLMResult.err m1 → isRateLimitError m1 = true →
      f 2 = LLMResult.err m2 → isRateLimitError m2 = true →
      _call_gemini_with_retry f 3 = (Except.error rateLimitFatalMsg, [2, 4])) ∧
    (∀ t, f 0 = LLMResult.ok t →
      _call_gemini_with_retry f 3 = (Except.ok (pyStrip t), [])) := by
  refine ⟨?_, ?_, ?_, ?_⟩
  · intro m h0 hrl
    simp [_call_gemini_with_retry, callGeminiGo, h0, hrl]
  · intro m0 m1 h0 hrl0 h1 hrl1
    simp [_call_gemini_with_retry, callGeminiGo, h0, hrl0, h1, hrl1]
  · intro m0 m1 m2 h0 hrl0 h1 hrl1 h2 hrl2
    simp [_call_gemini_with_retry, callGeminiGo, h0, hrl0, h1, hrl1, h2, hrl2]
  · intro t h0
    simp [_call_gemini_with_retry, callGeminiGo, h0]

/-- Witness for C6: three consecutive rate-limit errors exhaust the
retries with sleeps 2 s and 4 s and raise the fatal message. -/
theorem call_gemini_retry_spec_witness :
    _call_gemini_with_retry (fun _ => LLMResult.err "Error 429 quota") 3 =
      (Except.error rateLimitFatalMsg, [2, 4]) :=
  (call_gemini_retry_spec (fun _ => LLMResult.err "Error 429 quota")).2.2.1
    "Error 429 quota" "Error 429 quota" "Error 429 quota"
    rfl (by decide) rfl (by decide) rfl (by decide)

/-! ## C7 : video-load retry with FFmpeg fallback -/

/-- C7: opening the rendered video is attempted up to 3 times with a
fixed 2 s delay between attempts; a success on any attempt uses the
MoviePy path with no fallback; after the third failure the FFmpeg merge
fallback is invoked, and the stage fails only if that fallback also
fails. -/
theorem add_audio_load_fallback_spec (openF : Nat → Except String Unit)
    (fallback : Except String Unit) :
    (openF 0 = Except.ok () →
      load_video_with_fallback openF fallback = (Except.ok MergePath.moviepy, [])) ∧
    (∀ e0, openF 0 = Except.error e0 → openF 1 = Except.ok () →
      load_video_with_fallback openF fallback = (Except.ok MergePath.moviepy, [2])) ∧
    (∀ e0 e1, openF 0 = Except.error e0 → openF 1 = Except.error e1 →
      openF 2 = Except.ok () →
      load_video_with_fallback openF fallback = (Except.ok MergePath.moviepy, [2, 2])) ∧
    (∀ e0 e1 e2, openF 0 = Except.error e0 → openF 1 = Except.error e1 →
      openF 2 = Except.error e2 → fallback = Except.ok () →
      load_video_with_fallback openF fallback = (Except.ok MergePath.ffmpegFallback, [2, 2])) ∧
    (∀ e0 e1 e2 e, openF 0 = Except.error e0 → openF 1 = Except.error e1 →
      openF 2 = Except.error e2 → fallback = Except.error e →
      load_video_with_fallback openF fallback = (Except.error e, [2, 2])) := by
  refine ⟨?_, ?_, ?_, ?_, ?_⟩
  · intro h0
    simp [load_video_with_fallback, addAudioLoadGo, h0]
  · intro e0 h0 h1
    simp [load_video_with_fallback, addAudioLoadGo, h0, h1]
  · intro e0 e1 h0 h1 h2
    simp [load_video_with_fallback, addAudioLoadGo, h0, h1, h2]
  · intro e0 e1 e2 h0 h1 h2 hf
    simp [load_video_with_fallback, addAudioLoadGo, h0, h1, h2, hf, Except.map]
  · intro e0 e1 e2 e h0 h1 h2 hf
    simp [load_video_with_fallback, addAudioLoadGo, h0, h1, h2, hf, Except.map]

/-- Witness for C7: all three opens fail, the FFmpeg fallback succeeds,
the sleeps are 2 s each. -/
theorem add_audio_load_fallback_spec_witness :
    load_video_with_fallback (fun _ => Except.error "cannot open") (Except.ok ()) =
      (Except.ok MergePath.ffmpegFallback, [2, 2]) :=
  (add_audio_load_fallback_spec (fun _ => Except.error "cannot open")
      (Except.ok ())).2.2.2.1 "cannot open" "cannot open" "cannot open" rfl rfl rfl rfl

/-! ## C3 : artifact locator -/

/-- The fold of `pyMaxByMtime` returns one of the candidates. -/
theorem foldl_maxBy_mem (xs : List MediaFile) (a : MediaFile) :
    xs.foldl (fun best y => if y.mtime > best.mtime then y else best) a ∈ a :: xs := by
  induction xs generalizing a with
  | nil => simp
  | cons x xs ih =>
      simp only [List.foldl_cons]
      rcases List.mem_cons.mp (ih (if x.mtime > a.mtime then x else a)) with h | h
      · rw [h]
        by_cases hx : x.mtime > a.mtime
        · rw [if_pos hx]; exact List.mem_cons_of_mem _ (List.mem_cons_self _ _)
        · rw [if_neg hx]; exact List.mem_cons_self _ _
      · exact List.mem_cons_of_mem _ (List.mem_cons_of_mem _ h)

/-- The fold of `pyMaxByMtime` dominates its accumulator's mtime. -/
theorem foldl_maxBy_acc_le (xs : List MediaFile) :
    ∀ a : MediaFile,
      a.mtime ≤ (xs.foldl (fun best z => if z.mtime > best.mtime then z else best) a).mtime := by
  induction xs with
  | nil => intro a; simp
  | cons x xs ih =>
      intro a
      simp only [List.foldl_cons]
      refine le_trans ?_ (ih _)
      by_cases hx : x.mtime > a.mtime
      · rw [if_pos hx]; exact le_of_lt hx
      · rw [if_neg hx]

/-- The fold of `pyMaxByMtime` dominates every candidate's mtime. -/
theorem foldl_maxBy_ge (xs : List MediaFile) (a y : MediaFile) (hy : y ∈ a :: xs) :
    y.mtime ≤ (xs.foldl (fun best z => if z.mtime > best.mtime then z else best) a).mtime := by
  induction xs generalizing a with
  | nil =>
      rw [List.mem_singleton] at hy
      simp [hy]
  | cons x xs ih =>
      simp only [List.foldl_cons]
      have hstep : ∀ z, z = a ∨ z = x →
          z.mtime ≤ (if x.mtime > a.mtime then x else a).mtime := by
        rintro z (rfl | rfl)
        · by_cases hx : x.mtime > z.mtime
          · rw [if_pos hx]; exact le_of_lt hx
          · rw [if_neg hx]
        · by_cases hx : z.mtime > a.mtime
          · rw [if_pos hx]
          · rw [if_neg hx]; exact le_of_not_lt hx
      rcases List.mem_cons.mp hy with rfl | hy'
      · exact le_trans (hstep y (Or.inl rfl)) (foldl_maxBy_acc_le xs _)
      · rcases List.mem_cons.mp hy' with rfl | hy''
        · exact le_trans (hstep y (Or.inr rfl)) (foldl_maxBy_acc_le xs _)
        · exact ih _ (List.mem_cons_of_mem _ hy'')

/-- `pyMaxByMtime` returns a member whose mtime dominates the list. -/
theorem pyMaxByMtime_spec (l : List MediaFile) (b : MediaFile)
    (hb : pyMaxByMtime l = some b) : b ∈ l ∧ ∀ y ∈ l, y.mtime ≤ b.mtime := by
  cases l with
  | nil => simp [pyMaxByMtime] at hb
  | cons x xs =>
      simp only [pyMaxByMtime, Option.some.injEq] at hb
      subst hb
      exact ⟨foldl_maxBy_mem xs x, fun y hy => foldl_maxBy_ge xs x y hy⟩

/-- Under pairwise-distinct in-window mtimes, the locator returns the
in-window file of maximal mtime, whatever the enumeration order. -/
theorem locate_unique_max (now : ℚ) (l : List MediaFile) (f : MediaFile)
    (hf : f ∈ l) (hwin : now - f.mtime < 60)
    (hmax : ∀ g ∈ l, now - g.mtime < 60 → g ≠ f → g.mtime < f.mtime) :
    locate_recent_video now l = some f := by
  unfold locate_recent_video
  have hfF : f ∈ l.filter (fun v => decide (now - v.mtime < 60)) :=
    List.mem_filter.mpr ⟨hf, decide_eq_true hwin⟩
  obtain ⟨b, hb⟩ : ∃ b, pyMaxByMtime (l.filter (fun v => decide (now - v.mtime < 60))) = some b := by
    cases hF : l.filter (fun v => decide (now - v.mtime < 60)) with
    | nil => rw [hF] at hfF; simp at hfF
    | cons x xs => exact ⟨_, rfl⟩
  obtain ⟨hbmem, hbmax⟩ := pyMaxByMtime_spec _ _ hb
  have hbl : b ∈ l := (List.mem_filter.mp hbmem).1
  have hbwin : now - b.mtime < 60 :=
    of_decide_eq_true (List.mem_filter.mp hbmem).2
  have hbf : b = f := by
    by_contra hne
    exact absurd (hbmax f hfF) (not_le.mpr (hmax b hbl hbwin hne))
  rw [hb, hbf]

/-- C3: a file at least 60 s older than the scan time is never selected;
and when the in-window files have pairwise-distinct modification times,
the locator returns exactly the in-window file of maximal mtime,
independently of the enumeration order of the scan. -/
theorem locate_recent_video_spec (now : ℚ) (files : List MediaFile) (f : MediaFile) :
    (locate_recent_video now files = some f → now - f.mtime < 60) ∧
    (f ∈ files → now - f.mtime < 60 →
      (∀ g ∈ files, now - g.mtime < 60 → g ≠ f → g.mtime < f.mtime) →
      locate_recent_video now files = some f ∧
      ∀ files', files'.Perm files → locate_recent_video now files' = some f) := by
  constructor
  · intro h
    unfold locate_recent_video at h
    have := (pyMaxByMtime_spec _ _ h).1
    exact of_decide_eq_true (List.mem_filter.mp this).2
  · intro hf hwin hmax
    refine ⟨locate_unique_max now files f hf hwin hmax, fun files' hperm => ?_⟩
    exact locate_unique_max now files' f (hperm.mem_iff.mpr hf) hwin
      (fun g hg => hmax g (hperm.subset hg))

/-- Witness for C3: among a stale file (40 s mtime, 60 s before the scan)
and two in-window files, the locator picks the most recent one, in either
enumeration order. -/
theorem locate_recent_video_spec_witness :
    locate_recent_video 100 [⟨"a", 40⟩, ⟨"b", 90⟩, ⟨"c", 80⟩] = some ⟨"b", 90⟩ ∧
    locate_recent_video 100 [⟨"c", 80⟩, ⟨"b", 90⟩, ⟨"a", 40⟩] = some ⟨"b", 90⟩ := by
  have h := (locate_recent_video_spec 100 [⟨"a", 40⟩, ⟨"b", 90⟩, ⟨"c", 80⟩] ⟨"b", 90⟩).2
    (by simp) (by norm_num)
    (by
      intro g hg hgwin hgne
      simp only [List.mem_cons, List.not_mem_nil, or_false] at hg
      rcases hg with rfl | rfl | rfl
      · norm_num at hgwin
      · exact absurd rfl hgne
      · norm_num)
  exact ⟨h.1, h.2 [⟨"c", 80⟩, ⟨"b", 90⟩, ⟨"a", 40⟩] (by
    have hrev := List.reverse_perm [(⟨"a", 40⟩ : MediaFile), ⟨"b", 90⟩, ⟨"c", 80⟩]
    simpa using hrev)⟩

/-! ## C1 : duration reconciler -/

/-- The audio action of the reconciler, characterised against the
computed target. -/
theorem reconcile_audio_adjust_eq (dv da : ℚ) :
    (reconcile_durations dv da).audio_adjust =
      if da > (reconcile_durations dv da).target then AudioAdjust.trimmed
      else if da < (reconcile_durations dv da).target then
        AudioAdjust.padded ((reconcile_durations dv da).target - da)
      else AudioAdjust.unchanged := by
  simp only [reconcile_durations]

/-- C1 counterexample: at Dv = 75 s, Da = 50 s the target is clamped to
60 s and the 50 s audio is shorter than the target, so the code pads it
with 10 s of trailing silence; it is not trimmed as the claim's example
states. -/
theorem reconcile_claim_counterexample :
    (reconcile_durations 75 50).target = 60 ∧
    (reconcile_durations 75 50).audio_adjust = AudioAdjust.padded 10 ∧
    (reconcile_durations 75 50).audio_adjust ≠ AudioAdjust.trimmed := by
  refine ⟨?_, ?_, ?_⟩
  · simp only [reconcile_durations]; norm_num
  · simp only [reconcile_durations]; norm_num
  · simp only [reconcile_durations]
    norm_num
    simp

/-- C1 (amended): target = 60 when Dv > 60 (video trimmed), 30 when
Dv < 30 (video freeze-frame-extended), Dv otherwise; audio is hard-trimmed
when Da > target and padded with `target - Da` of appended silence when
Da < target; both tracks are forced to exactly the target.  In the
worked examples, Dv=45, Da=10 gives target 45 with 35 s of trailing
silence; Dv=75, Da=50 gives target 60 with 10 s of trailing silence
(padded, not trimmed); Dv=20, Da=40 gives target 30 with the audio
trimmed to 30 s. -/
theorem reconcile_durations_spec (dv da : ℚ) (_hdv : 0 < dv) (_hda : 0 < da) :
    ((reconcile_durations dv da).video_duration = (reconcile_durations dv da).target ∧
     (reconcile_durations dv da).audio_duration = (reconcile_durations dv da).target) ∧
    (60 < dv → (reconcile_durations dv da).target = 60 ∧
      (reconcile_durations dv da).video_adjust = VideoAdjust.trimmed) ∧
    (dv < 30 → (reconcile_durations dv da).target = 30 ∧
      (reconcile_durations dv da).video_adjust = VideoAdjust.extended) ∧
    (30 ≤ dv → dv ≤ 60 → (reconcile_durations dv da).target = dv ∧
      (reconcile_durations dv da).video_adjust = VideoAdjust.unchanged) ∧
    ((reconcile_durations dv da).target < da →
      (reconcile_durations dv da).audio_adjust = AudioAdjust.trimmed) ∧
    (da < (reconcile_durations dv da).target →
      (reconcile_durations dv da).audio_adjust =
        AudioAdjust.padded ((reconcile_durations dv da).target - da)) ∧
    reconcile_durations 45 10 =
      ⟨45, VideoAdjust.unchanged, AudioAdjust.padded 35, 45, 45⟩ ∧
    reconcile_durations 75 50 =
      ⟨60, VideoAdjust.trimmed, AudioAdjust.padded 10, 60, 60⟩ ∧
    reconcile_durations 20 40 =
      ⟨30, VideoAdjust.extended, AudioAdjust.trimmed, 30, 30⟩ := by
  refine ⟨⟨rfl, rfl⟩, ?_, ?_, ?_, ?_, ?_, ?_, ?_, ?_⟩
  · intro h
    simp only [reconcile_durations]
    rw [if_pos h]
    exact ⟨rfl, rfl⟩
  · intro h
    simp only [reconcile_durations]
    rw [if_neg (by intro hgt; exact absurd h (not_lt.mpr (by linarith))), if_pos h]
    exact ⟨rfl, rfl⟩
  · intro h30 h60
    simp only [reconcile_durations]
    rw [if_neg (not_lt.mpr h60), if_neg (not_lt.mpr h30)]
    exact ⟨rfl, rfl⟩
  · intro h
    rw [reconcile_audio_adjust_eq, if_pos h]
  · intro h
    rw [reconcile_audio_adjust_eq, if_neg (lt_asymm h), if_pos h]
  · simp only [reconcile_durations]; norm_num
  · simp only [reconcile_durations]; norm_num
  · simp only [reconcile_durations]; norm_num

/-- Witness for C1 at Dv = 45, Da = 10: target 45, 35 s of trailing
silence, both tracks forced to 45. -/
theorem reconcile_durations_spec_witness :
    reconcile_durations 45 10 =
      ⟨45, VideoAdjust.unchanged, AudioAdjust.padded 35, 45, 45⟩ :=
  (reconcile_durations_spec 45 10 (by norm_num) (by norm_num)).2.2.2.2.2.2.1

/-! ## C5 : narration extraction -/

/-- A non-empty pattern is not a prefix of the empty string. -/
theorem pfxEq_nil_of_ne (sep : List Char) (hne : sep ≠ []) : pfxEq sep [] = false := by
  cases sep with
  | nil => exact absurd rfl hne
  | cons c t => rfl

/-- The substring test succeeds exactly when the first-occurrence split
succeeds (for a non-empty separator): both scan the same positions. -/
theorem containsSub_iff_splitFirst (sep : List Char) (hne : sep ≠ []) (s : List Char) :
    containsSub sep s = true ↔ (splitFirst sep s).isSome := by
  induction s with
  | nil => simp [containsSub, splitFirst, pfxEq_nil_of_ne sep hne]
  | cons c t ih =>
      simp only [containsSub, splitFirst]
      by_cases h : pfxEq sep (c :: t) = true
      · simp [h]
      · simp only [Bool.or_eq_true, h, false_or, Bool.false_eq_true, if_false]
        rw [ih]
        cases splitFirst sep t <;> simp

/-- `pySplitGo` always returns at least one chunk. -/
theorem pySplitGo_ne_nil (sep : List Char) (fuel : Nat) (s : List Char) :
    pySplitGo sep fuel s ≠ [] := by
  cases fuel with
  | zero => simp [pySplitGo]
  | succ f =>
      simp only [pySplitGo]
      cases h : splitFirst sep s with
      | none => simp
      | some p => cases p; simp

/-- A one-chunk result of `pySplitGo` is the whole input. -/
theorem pySplitGo_singleton (sep : List Char) (fuel : Nat) (s x : List Char)
    (h : pySplitGo sep fuel s = [x]) : x = s := by
  cases fuel with
  | zero =>
      simp only [pySplitGo, List.cons.injEq, and_true] at h
      exact h.symm
  | succ f =>
      simp only [pySplitGo] at h
      cases hs : splitFirst sep s with
      | none =>
          rw [hs] at h
          simp only [List.cons.injEq, and_true] at h
          exact h.symm
      | some p =>
          obtain ⟨b, a⟩ := p
          rw [hs] at h
          simp only [List.cons.injEq] at h
          exact absurd h.2 (pySplitGo_ne_nil sep f a)

/-- On a line where the marker occurs at most once, the code's
`split(marker)[1]` equals the spec's whole remainder after the marker. -/
theorem narrLine_agree (line : List Char)
    (h : (pySplit narrMarker line).length ≤ 2) :
    narrLineCode line = narrLineSpec line := by
  unfold narrLineCode narrLineSpec
  by_cases hc : containsSub narrMarker line = true
  · rw [if_pos hc, if_pos hc]
    have hs : (splitFirst narrMarker line).isSome :=
      (containsSub_iff_splitFirst narrMarker (by decide) line).mp hc
    obtain ⟨⟨b, a⟩, hba⟩ := Option.isSome_iff_exists.mp hs
    have hps : pySplit narrMarker line = b :: pySplitGo narrMarker line.length a := by
      unfold pySplit
      simp only [pySplitGo, hba]
    have hlen : (pySplitGo narrMarker line.length a).length ≤ 1 := by
      rw [hps] at h
      simp only [List.length_cons] at h
      omega
    obtain ⟨x, hx⟩ : ∃ x, pySplitGo narrMarker line.length a = [x] := by
      cases hgo : pySplitGo narrMarker line.length a with
      | nil => exact absurd hgo (pySplitGo_ne_nil _ _ _)
      | cons y ys =>
          cases ys with
          | nil => exact ⟨y, rfl⟩
          | cons z zs =>
              rw [hgo] at hlen
              simp at hlen
    have hxa : x = a := pySplitGo_singleton _ _ _ _ hx
    rw [hps, hx, hxa, hba]
    rfl
  · rw [if_neg (by simpa using hc), if_neg (by simpa using hc)]

/-- `filterMap` respects pointwise-equal functions on the list. -/
theorem filterMap_congr_mem {α β : Type} (l : List α) (f g : α → Option β)
    (h : ∀ a ∈ l, f a = g a) : l.filterMap f = l.filterMap g := by
  induction l with
  | nil => rfl
  | cons x xs ih =>
      simp only [List.filterMap_cons]
      rw [h x (List.mem_cons_self x xs), ih (fun a ha => h a (List.mem_cons_of_mem _ ha))]

/-- C5 (amended): on sources in which no line contains the marker token
more than once (the split of each line by the marker has at most two
chunks), extraction returns exactly the spec's joined quote-stripped
remainders; and when no line contains the marker at all, it returns the
fixed default sentence. -/
theorem extract_narration_amended (code : String) :
    ((∀ line ∈ splitLines code.data, (pySplit narrMarker line).length ≤ 2) →
      extract_narration code = extractNarrationSpec code) ∧
    ((∀ line ∈ splitLines code.data, containsSub narrMarker line = false) →
      extract_narration code = defaultNarration) := by
  constructor
  · intro h
    unfold extract_narration extractNarrationSpec
    rw [filterMap_congr_mem (splitLines code.data) narrLineCode narrLineSpec
      (fun line hline => narrLine_agree line (h line hline))]
  · intro h
    unfold extract_narration
    have hnil : (splitLines code.data).filterMap narrLineCode = [] := by
      rw [List.filterMap_eq_nil_iff]
      intro a ha
      unfold narrLineCode
      rw [if_neg (by simp [h a ha])]
    rw [hnil]
    rfl

/-- Witness for C5's amended statement: a single-marker source agrees
with the spec reading, and a marker-free source yields the default
sentence. -/
theorem extract_narration_amended_witness :
    extract_narration "# NARRATION: \"Hi\"\nx = 1" =
      extractNarrationSpec "# NARRATION: \"Hi\"\nx = 1" ∧
    extract_narration "x = 1" = defaultNarration :=
  ⟨(extract_narration_amended "# NARRATION: \"Hi\"\nx = 1").1 (by decide),
   (extract_narration_amended "x = 1").2 (by decide)⟩

/-- C5 counterexample: on a line containing the marker twice, the code
keeps only the segment between the two markers ("a"), not the whole
remainder of the line ("a # NARRATION: b") as the claim states. -/
theorem extract_narration_counterexample :
    extract_narration "# NARRATION: a # NARRATION: b" = "a" ∧
    extractNarrationSpec "# NARRATION: a # NARRATION: b" = "a # NARRATION: b" ∧
    extract_narration "# NARRATION: a # NARRATION: b" ≠
      extractNarrationSpec "# NARRATION: a # NARRATION: b" :=
  ⟨by decide, by decide, by decide⟩

/-! ## C2 : sanitizer idempotence -/

/-- C2 counterexample: the fix pass is not idempotent.  Fix 2 rewrites
`self.camera.animate` to `# self.camera.animate (invalid)`, whose output
still contains the search text, so a second pass wraps it again. -/
theorem sanitize_not_idempotent_counterexample :
    _fix_generated_manim_code "self.camera.animate" = "# self.camera.animate (invalid)" ∧
    _fix_generated_manim_code "# self.camera.animate (invalid)" =
      "# # self.camera.animate (invalid) (invalid)" ∧
    _fix_generated_manim_code (_fix_generated_manim_code "self.camera.animate") ≠
      _fix_generated_manim_code "self.camera.animate" :=
  ⟨by decide, by decide, by decide⟩

/-- C2 (amended): the fix pass is idempotent on the code it leaves
unchanged — a second application never alters a source the first
application did not alter — but not on all inputs (see the
counterexample). -/
theorem sanitize_idempotent_on_fixed_points (x : String)
    (h : _fix_generated_manim_code x = x) :
    _fix_generated_manim_code (_fix_generated_manim_code x) =
      _fix_generated_manim_code x := by
  rw [h]
  exact h

/-- Witness for C2's amended statement at a concrete already-clean
source. -/
theorem sanitize_idempotent_on_fixed_points_witness :
    _fix_generated_manim_code "circle = Circle(radius=2)" = "circle = Circle(radius=2)" ∧
    _fix_generated_manim_code (_fix_generated_manim_code "circle = Circle(radius=2)") =
      _fix_generated_manim_code "circle = Circle(radius=2)" :=
  ⟨by decide, sanitize_idempotent_on_fixed_points "circle = Circle(radius=2)" (by decide)⟩

/-- Witness for C10 at a concrete prompt: the derived stem, its length
bound, and the per-character exclusions at its first character. -/
theorem derive_output_name_spec_witness :
    deriveOutputName "hello world: 100%!" = "hello_world_100" ∧
    (deriveOutputName "hello world: 100%!").length ≤ 50 ∧
    ('_' ≠ '/' ∧ '_' ≠ '\\' ∧ '_' ≠ '"' ∧ '_' ≠ '\'' ∧ '_' ≠ '.') :=
  ⟨by decide, (derive_output_name_spec "hello world: 100%!").1,
   (derive_output_name_spec "hello world: 100%!").2 '_' (by decide)⟩
